import Mathlib

/-!
Verification of the Herschel-Bulkley 2D constitutive law
(`herschel_bulkley_2D_law.cpp`, PfemFluidDynamicsApplication).

The C++ routine `CalculateMaterialResponseCauchy` is embedded shallowly
over the real numbers: machine doubles become `ℝ`, `std::sqrt` becomes
`Real.sqrt`, `std::exp` becomes `Real.exp`, and `std::pow` on a positive
base becomes `Real.rpow`.  Strain and stress vectors (Voigt layout,
3 components) are `Vec3`; the 3x3 constitutive matrix is `Mat3`.
-/

namespace HerschelBulkley

/-- A 3-component vector in Voigt layout (xx, yy, xy components). -/
structure Vec3 where
  c0 : ℝ
  c1 : ℝ
  c2 : ℝ

/-- A 3x3 matrix, row-major fields `mij`. -/
structure Mat3 where
  m00 : ℝ
  m01 : ℝ
  m02 : ℝ
  m10 : ℝ
  m11 : ℝ
  m12 : ℝ
  m20 : ℝ
  m21 : ℝ
  m22 : ℝ

/-- The five scalar material parameters read by the law
(`DYNAMIC_VISCOSITY`, `YIELD_SHEAR`, `FLOW_INDEX`, `ADAPTIVE_EXPONENT`,
`BULK_MODULUS`). -/
structure MaterialProperties where
  dynamic_viscosity : ℝ
  yield_shear : ℝ
  flow_index : ℝ
  adaptive_exponent : ℝ
  bulk_modulus : ℝ

/-- The tolerance below which the equivalent strain rate is treated as
zero, from `CalculateMaterialResponseCauchy`: `const double tolerance = 1e-8;`. -/
noncomputable def tolerance : ℝ := 1e-8

/-- Equivalent scalar strain rate, from `CalculateMaterialResponseCauchy`:
`std::sqrt(2.0*e[0]*e[0] + 2.0*e[1]*e[1] + 4.0*e[2]*e[2])`. -/
noncomputable def equivalentStrainRate (e : Vec3) : ℝ :=
  Real.sqrt (2.0 * e.c0 * e.c0 + 2.0 * e.c1 * e.c1 + 4.0 * e.c2 * e.c2)

/-- The `else` branch of the viscosity computation in
`CalculateMaterialResponseCauchy`:
`regularization = 1.0 - exp(-adaptive_exponent * esr)` and
`dynamic_viscosity * pow(esr, flow_index - 1) + regularization * yield_shear / esr`. -/
noncomputable def regularizedBranch (p : MaterialProperties) (esr : ℝ) : ℝ :=
  p.dynamic_viscosity * esr ^ (p.flow_index - 1) +
    (1.0 - Real.exp (-p.adaptive_exponent * esr)) * p.yield_shear / esr

/-- The branch on the equivalent strain rate in
`CalculateMaterialResponseCauchy`: below `tolerance` the effective
viscosity is `yield_shear * adaptive_exponent`, otherwise the
regularized Herschel-Bulkley formula. -/
noncomputable def effectiveDynamicViscosity (p : MaterialProperties) (esr : ℝ) : ℝ :=
  if esr < tolerance then p.yield_shear * p.adaptive_exponent
  else regularizedBranch p esr

/-- The viscosity part of `CalculateMaterialResponseCauchy`: equivalent
strain rate from the strain vector, then the branched effective
viscosity. -/
noncomputable def computeEffectiveViscosity (p : MaterialProperties) (e : Vec3) : ℝ :=
  effectiveDynamicViscosity p (equivalentStrainRate e)

/-- Deviatoric stress assembly from `CalculateMaterialResponseCauchy`:
`strain_trace = e[0] + e[1]`, `s[0] = 2*mu*(e[0] - trace/3)`,
`s[1] = 2*mu*(e[1] - trace/3)`, `s[2] = 2*mu*e[2]`. -/
noncomputable def stressVector (mu : ℝ) (e : Vec3) : Vec3 :=
  let strain_trace := e.c0 + e.c1
  { c0 := 2.0 * mu * (e.c0 - strain_trace / 3.0)
    c1 := 2.0 * mu * (e.c1 - strain_trace / 3.0)
    c2 := 2.0 * mu * e.c2 }

/-- Modelled from the spec: `EffectiveViscousConstitutiveMatrix2D` (the
base-class helper called when the constitutive-tensor flag is set) is
not under `src/`; the spec says the returned matrix is consistent with
the partial derivatives of the stress formula at fixed effective
viscosity, so its entries are those partial derivatives of
`stressVector`. -/
noncomputable def effectiveViscousConstitutiveMatrix2D (mu : ℝ) : Mat3 :=
  { m00 := 4.0 * mu / 3.0, m01 := -(2.0 * mu) / 3.0, m02 := 0
    m10 := -(2.0 * mu) / 3.0, m11 := 4.0 * mu / 3.0, m12 := 0
    m20 := 0, m21 := 0, m22 := 2.0 * mu }

/-- The caller-supplied `Parameters` object of the constitutive law:
strain vector, stress vector, constitutive matrix, the
`COMPUTE_CONSTITUTIVE_TENSOR` flag and the material properties. -/
structure Parameters where
  strain_vector : Vec3
  stress_vector : Vec3
  constitutive_matrix : Mat3
  compute_constitutive_tensor : Bool
  material_properties : MaterialProperties

/-- `HerschelBulkley2DLaw::CalculateMaterialResponseCauchy`: computes the
equivalent strain rate and effective viscosity, writes the deviatoric
stress vector, and writes the constitutive matrix only when the
`COMPUTE_CONSTITUTIVE_TENSOR` flag is set. -/
noncomputable def calculateMaterialResponseCauchy (v : Parameters) : Parameters :=
  let esr := equivalentStrainRate v.strain_vector
  let mu := effectiveDynamicViscosity v.material_properties esr
  { v with
    stress_vector := stressVector mu v.strain_vector
    constitutive_matrix :=
      if v.compute_constitutive_tensor then effectiveViscousConstitutiveMatrix2D mu
      else v.constitutive_matrix }

/-- `HerschelBulkley2DLaw::Check`: a sequence of `KRATOS_ERROR_IF`
statements, each raising a descriptive error naming the offending
parameter and its value when that parameter is negative.  The error
macro raises immediately (per the spec, a violation is surfaced
immediately to the caller and the host aborts material setup), so the
first violating parameter in order determines the result; on success
the function returns 0. -/
noncomputable def Check (p : MaterialProperties) : Except (String × ℝ) Int :=
  if p.dynamic_viscosity < 0 then .error ("DYNAMIC_VISCOSITY", p.dynamic_viscosity)
  else if p.yield_shear < 0 then .error ("YIELD_SHEAR", p.yield_shear)
  else if p.flow_index < 0 then .error ("FLOW_INDEX", p.flow_index)
  else if p.adaptive_exponent < 0 then .error ("ADAPTIVE_EXPONENT", p.adaptive_exponent)
  else if p.bulk_modulus < 0 then .error ("BULK_MODULUS", p.bulk_modulus)
  else .ok 0

/-- C1: for every strain-rate tensor and non-negative parameter set, the
viscosity part of `CalculateMaterialResponseCauchy` returns
`yield_shear * adaptive_exponent` when the equivalent strain rate is
below the tolerance 1e-8, and otherwise
`dynamic_viscosity * esr ^ (flow_index - 1) +
(1 - exp(-adaptive_exponent * esr)) * yield_shear / esr`. -/
theorem effective_viscosity_branches (p : MaterialProperties) (e : Vec3)
    (hdv : 0 ≤ p.dynamic_viscosity) (hys : 0 ≤ p.yield_shear)
    (hfi : 0 ≤ p.flow_index) (hae : 0 ≤ p.adaptive_exponent) :
    (equivalentStrainRate e < tolerance →
      computeEffectiveViscosity p e = p.yield_shear * p.adaptive_exponent)
    ∧ (tolerance ≤ equivalentStrainRate e →
      computeEffectiveViscosity p e =
        p.dynamic_viscosity * equivalentStrainRate e ^ (p.flow_index - 1) +
          (1 - Real.exp (-p.adaptive_exponent * equivalentStrainRate e)) * p.yield_shear /
            equivalentStrainRate e) := by
  constructor
  · intro h
    rw [computeEffectiveViscosity, effectiveDynamicViscosity, if_pos h]
  · intro h
    rw [computeEffectiveViscosity, effectiveDynamicViscosity, if_neg (not_lt.mpr h),
      regularizedBranch]
    norm_num

/-- Witness for C1, at a pure-shear strain tensor and unit parameters. -/
theorem effective_viscosity_branches_witness :
    (0 : ℝ) ≤ 1
    ∧ ((equivalentStrainRate ⟨0, 0, 1⟩ < tolerance →
        computeEffectiveViscosity ⟨1, 1, 1, 1, 0⟩ ⟨0, 0, 1⟩ = 1 * 1)
      ∧ (tolerance ≤ equivalentStrainRate ⟨0, 0, 1⟩ →
        computeEffectiveViscosity ⟨1, 1, 1, 1, 0⟩ ⟨0, 0, 1⟩ =
          1 * equivalentStrainRate ⟨0, 0, 1⟩ ^ ((1 : ℝ) - 1) +
            (1 - Real.exp (-1 * equivalentStrainRate ⟨0, 0, 1⟩)) * 1 /
              equivalentStrainRate ⟨0, 0, 1⟩)) :=
  ⟨by norm_num,
    effective_viscosity_branches ⟨1, 1, 1, 1, 0⟩ ⟨0, 0, 1⟩
      (by norm_num) (by norm_num) (by norm_num) (by norm_num)⟩

/-- C2: the equivalent scalar strain rate computed by
`CalculateMaterialResponseCauchy` equals
`sqrt(2 eps_xx^2 + 2 eps_yy^2 + 4 eps_xy^2)`. -/
theorem equivalent_strain_rate_formula (e : Vec3) :
    equivalentStrainRate e = Real.sqrt (2 * e.c0 ^ 2 + 2 * e.c1 ^ 2 + 4 * e.c2 ^ 2) := by
  unfold equivalentStrainRate
  congr 1
  ring

/-- C3: the deviatoric stress written by `CalculateMaterialResponseCauchy`
is `2 mu (eps_xx - trace/3)`, `2 mu (eps_yy - trace/3)`, `2 mu eps_xy`
with `trace = eps_xx + eps_yy`; the trace is divided by 3 (the 3D
convention), not by 2, as the final conjunct shows at a concrete input. -/
theorem stress_assembly (mu : ℝ) (e : Vec3) :
    (stressVector mu e).c0 = 2 * mu * (e.c0 - (e.c0 + e.c1) / 3)
    ∧ (stressVector mu e).c1 = 2 * mu * (e.c1 - (e.c0 + e.c1) / 3)
    ∧ (stressVector mu e).c2 = 2 * mu * e.c2
    ∧ (stressVector 1 ⟨1, 0, 0⟩).c0 ≠ 2 * 1 * (1 - (1 + 0) / 2) := by
  refine ⟨by norm_num [stressVector], by norm_num [stressVector],
    by norm_num [stressVector], ?_⟩
  norm_num [stressVector]

/-- C4 counterexample: with both `DYNAMIC_VISCOSITY = -1` and
`YIELD_SHEAR = -1` violating, `Check` reports only the first violation
(`DYNAMIC_VISCOSITY`); the `YIELD_SHEAR` violation present in the input
is not reported, so `Check` does not report every violation present. -/
theorem check_counterexample :
    Check ⟨-1, -1, 1, 1, 1⟩ = Except.error ("DYNAMIC_VISCOSITY", -1) := by
  norm_num [Check]

/-- C4 (amended): `Check` examines the five parameters in a fixed order
(dynamic viscosity, yield shear, flow index, adaptive exponent, bulk
modulus), raises a descriptive error naming the first offending
parameter and giving its value, leaving later parameters unexamined,
and succeeds with 0 exactly when all five are non-negative. -/
theorem check_first_violation (p : MaterialProperties) :
    (Check p = Except.ok 0 ↔
      0 ≤ p.dynamic_viscosity ∧ 0 ≤ p.yield_shear ∧ 0 ≤ p.flow_index
        ∧ 0 ≤ p.adaptive_exponent ∧ 0 ≤ p.bulk_modulus)
    ∧ (p.dynamic_viscosity < 0 →
        Check p = Except.error ("DYNAMIC_VISCOSITY", p.dynamic_viscosity))
    ∧ (0 ≤ p.dynamic_viscosity → p.yield_shear < 0 →
        Check p = Except.error ("YIELD_SHEAR", p.yield_shear))
    ∧ (0 ≤ p.dynamic_viscosity → 0 ≤ p.yield_shear → p.flow_index < 0 →
        Check p = Except.error ("FLOW_INDEX", p.flow_index))
    ∧ (0 ≤ p.dynamic_viscosity → 0 ≤ p.yield_shear → 0 ≤ p.flow_index →
        p.adaptive_exponent < 0 →
        Check p = Except.error ("ADAPTIVE_EXPONENT", p.adaptive_exponent))
    ∧ (0 ≤ p.dynamic_viscosity → 0 ≤ p.yield_shear → 0 ≤ p.flow_index →
        0 ≤ p.adaptive_exponent → p.bulk_modulus < 0 →
        Check p = Except.error ("BULK_MODULUS", p.bulk_modulus)) := by
  refine ⟨?_, ?_, ?_, ?_, ?_, ?_⟩
  · unfold Check
    constructor
    · intro h
      split_ifs at h with h1 h2 h3 h4 h5 <;> simp_all [not_lt]
    · rintro ⟨h1, h2, h3, h4, h5⟩
      rw [if_neg (not_lt.mpr h1), if_neg (not_lt.mpr h2), if_neg (not_lt.mpr h3),
        if_neg (not_lt.mpr h4), if_neg (not_lt.mpr h5)]
  · intro h
    unfold Check
    rw [if_pos h]
  · intro h1 h2
    unfold Check
    rw [if_neg (not_lt.mpr h1), if_pos h2]
  · intro h1 h2 h3
    unfold Check
    rw [if_neg (not_lt.mpr h1), if_neg (not_lt.mpr h2), if_pos h3]
  · intro h1 h2 h3 h4
    unfold Check
    rw [if_neg (not_lt.mpr h1), if_neg (not_lt.mpr h2), if_neg (not_lt.mpr h3), if_pos h4]
  · intro h1 h2 h3 h4 h5
    unfold Check
    rw [if_neg (not_lt.mpr h1), if_neg (not_lt.mpr h2), if_neg (not_lt.mpr h3),
      if_neg (not_lt.mpr h4), if_pos h5]

/-- Witness for the amended C4: a parameter set whose first violation is
`YIELD_SHEAR = -2` makes `Check` report exactly that pair. -/
theorem check_first_violation_witness :
    (0 : ℝ) ≤ 1 ∧ (-2 : ℝ) < 0
    ∧ Check ⟨1, -2, 3, 4, 5⟩ = Except.error ("YIELD_SHEAR", -2) :=
  ⟨by norm_num, by norm_num,
    (check_first_violation ⟨1, -2, 3, 4, 5⟩).2.2.1 (by norm_num) (by norm_num)⟩

/-- C5 counterexample: with `dynamic_viscosity = 1`, `yield_shear = 0`,
`flow_index = 1`, `adaptive_exponent = 1` (a non-negative parameter
set), the regularized-branch formula is constantly 1 for positive
strain rates, so it does not tend to
`yield_shear * adaptive_exponent = 0 * 1` as the strain rate tends to 0
from above. -/
theorem continuity_counterexample :
    ¬ Filter.Tendsto (fun esr => regularizedBranch ⟨1, 0, 1, 1, 0⟩ esr)
        (nhdsWithin 0 (Set.Ioi 0)) (nhds ((0 : ℝ) * 1)) := by
  intro h
  have hconst : (fun esr => regularizedBranch ⟨1, 0, 1, 1, 0⟩ esr) = fun _ => (1 : ℝ) := by
    funext esr
    have h0 : ((⟨1, 0, 1, 1, 0⟩ : MaterialProperties).flow_index - 1) = 0 := by norm_num
    simp [regularizedBranch, h0]
  rw [hconst] at h
  have huniq : (0 : ℝ) * 1 = 1 := tendsto_nhds_unique h tendsto_const_nhds
  norm_num at huniq

/-- C5 (amended): for every parameter set in which the power-law term
vanishes in the limit — consistency index (`dynamic_viscosity`) equal
to 0, or `flow_index > 1` — the regularized-branch formula tends to
`yield_shear * adaptive_exponent` as the equivalent strain rate tends
to 0 from above, matching the explicit zero-strain-rate branch.  (For a
positive consistency index with `flow_index = 1` the counterexample
applies, and with `flow_index < 1` the power-law term blows up.) -/
theorem continuity_amended (p : MaterialProperties)
    (hK : p.dynamic_viscosity = 0 ∨ 1 < p.flow_index) :
    Filter.Tendsto (fun esr => regularizedBranch p esr) (nhdsWithin 0 (Set.Ioi 0))
      (nhds (p.yield_shear * p.adaptive_exponent)) := by
  have hderiv : HasDerivAt (fun x : ℝ => 1 - Real.exp (-p.adaptive_exponent * x))
      p.adaptive_exponent 0 := by
    have h1 : HasDerivAt (fun x : ℝ => -p.adaptive_exponent * x) (-p.adaptive_exponent) 0 := by
      simpa using (hasDerivAt_id (0 : ℝ)).const_mul (-p.adaptive_exponent)
    have h2 := h1.exp
    have h3 := h2.const_sub 1
    simpa using h3
  have hslope := hasDerivAt_iff_tendsto_slope.mp hderiv
  have hsub : nhdsWithin (0 : ℝ) (Set.Ioi 0) ≤ nhdsWithin 0 {(0 : ℝ)}ᶜ :=
    nhdsWithin_mono 0 (fun x hx => Set.mem_compl_singleton_iff.mpr (ne_of_gt hx))
  have hyield0 := (hslope.mono_left hsub).const_mul p.yield_shear
  have hyield : Filter.Tendsto
      (fun esr => (1.0 - Real.exp (-p.adaptive_exponent * esr)) * p.yield_shear / esr)
      (nhdsWithin 0 (Set.Ioi 0)) (nhds (p.yield_shear * p.adaptive_exponent)) := by
    refine hyield0.congr fun esr => ?_
    rw [slope_def_field]
    simp [Real.exp_zero]
    ring
  have hpow : Filter.Tendsto (fun esr : ℝ => p.dynamic_viscosity * esr ^ (p.flow_index - 1))
      (nhdsWithin 0 (Set.Ioi 0)) (nhds 0) := by
    rcases hK with h0 | h1
    · simp only [h0, zero_mul]
      exact tendsto_const_nhds
    · have hc : ContinuousAt (fun x : ℝ => x ^ (p.flow_index - 1)) 0 :=
        Real.continuousAt_rpow_const 0 (p.flow_index - 1) (Or.inr (by linarith))
      have h00 : (0 : ℝ) ^ (p.flow_index - 1) = 0 :=
        Real.zero_rpow (ne_of_gt (by linarith))
      have ht := hc.tendsto
      rw [h00] at ht
      have ht2 : Filter.Tendsto (fun x : ℝ => x ^ (p.flow_index - 1))
          (nhdsWithin 0 (Set.Ioi 0)) (nhds 0) := ht.mono_left nhdsWithin_le_nhds
      simpa using ht2.const_mul p.dynamic_viscosity
  have hsum := hpow.add hyield
  rw [zero_add] at hsum
  refine hsum.congr fun esr => ?_
  rw [regularizedBranch]

/-- Witness for the amended C5: with a positive consistency index 1,
`flow_index = 2 > 1`, `yield_shear = 2` and `adaptive_exponent = 5`,
the regularized branch tends to 10. -/
theorem continuity_amended_witness :
    ((1 : ℝ) < 2)
    ∧ Filter.Tendsto (fun esr => regularizedBranch ⟨1, 2, 2, 5, 0⟩ esr)
        (nhdsWithin 0 (Set.Ioi 0)) (nhds (2 * 5)) :=
  ⟨by norm_num, continuity_amended ⟨1, 2, 2, 5, 0⟩ (Or.inr (by norm_num))⟩

/-- C6: for every parameter set with non-negative dynamic viscosity,
yield shear, flow index and adaptive exponent, and every strain-rate
tensor (including the all-zero tensor), the effective viscosity is
non-negative; the embedding is a total real-valued function in which
the division and the power are reached only in the branch where the
equivalent strain rate is at least the tolerance. -/
theorem effective_viscosity_nonneg (p : MaterialProperties) (e : Vec3)
    (hdv : 0 ≤ p.dynamic_viscosity) (hys : 0 ≤ p.yield_shear)
    (hfi : 0 ≤ p.flow_index) (hae : 0 ≤ p.adaptive_exponent) :
    0 ≤ computeEffectiveViscosity p e := by
  unfold computeEffectiveViscosity effectiveDynamicViscosity
  split
  · exact mul_nonneg hys hae
  · rename_i h
    have hesr : (0 : ℝ) < equivalentStrainRate e :=
      lt_of_lt_of_le (by norm_num [tolerance]) (not_lt.mp h)
    unfold regularizedBranch
    apply add_nonneg
    · exact mul_nonneg hdv (Real.rpow_nonneg hesr.le _)
    · apply div_nonneg (mul_nonneg ?_ hys) hesr.le
      have hexp : Real.exp (-p.adaptive_exponent * equivalentStrainRate e) ≤ 1 := by
        rw [Real.exp_le_one_iff]
        nlinarith
      linarith

/-- Witness for C6, at a Bingham-like parameter set and a uniaxial
strain tensor. -/
theorem effective_viscosity_nonneg_witness :
    (0 : ℝ) ≤ 2 ∧ 0 ≤ computeEffectiveViscosity ⟨2, 3, 1, 1, 0⟩ ⟨1, 0, 0⟩ :=
  ⟨by norm_num,
    effective_viscosity_nonneg ⟨2, 3, 1, 1, 0⟩ ⟨1, 0, 0⟩
      (by norm_num) (by norm_num) (by norm_num) (by norm_num)⟩

/-- C7: the two normal stress components produced by the assembler sum
to `2 mu trace / 3` with `trace = eps_xx + eps_yy`, and this sum is not
identically zero (shown at `mu = 1`, strain `(1, 1, 0)`), unlike a true
2D deviatoric projection. -/
theorem stress_trace_sum (mu : ℝ) (e : Vec3) :
    (stressVector mu e).c0 + (stressVector mu e).c1 = 2 * mu * (e.c0 + e.c1) / 3
    ∧ (stressVector 1 ⟨1, 1, 0⟩).c0 + (stressVector 1 ⟨1, 1, 0⟩).c1 ≠ 0 := by
  constructor
  · simp only [stressVector]
    ring
  · norm_num [stressVector]

/-- C8: `CalculateMaterialResponseCauchy` writes the constitutive matrix
exactly when the `COMPUTE_CONSTITUTIVE_TENSOR` flag is set (leaving the
caller-supplied matrix unchanged when the flag is false), and never
modifies the strain vector, the material properties or the flag. -/
theorem response_frame (v : Parameters) :
    (v.compute_constitutive_tensor = false →
      (calculateMaterialResponseCauchy v).constitutive_matrix = v.constitutive_matrix)
    ∧ (v.compute_constitutive_tensor = true →
      (calculateMaterialResponseCauchy v).constitutive_matrix =
        effectiveViscousConstitutiveMatrix2D
          (computeEffectiveViscosity v.material_properties v.strain_vector))
    ∧ (calculateMaterialResponseCauchy v).strain_vector = v.strain_vector
    ∧ (calculateMaterialResponseCauchy v).material_properties = v.material_properties
    ∧ (calculateMaterialResponseCauchy v).compute_constitutive_tensor =
        v.compute_constitutive_tensor := by
  refine ⟨fun h => ?_, fun h => ?_, rfl, rfl, rfl⟩
  · simp [calculateMaterialResponseCauchy, h]
  · simp [calculateMaterialResponseCauchy, computeEffectiveViscosity, h]

/-- Witness for C8: with the flag false the matrix buffer is untouched;
with the flag true it holds the viscous constitutive matrix. -/
theorem response_frame_witness :
    ((calculateMaterialResponseCauchy
        { strain_vector := ⟨1, 2, 3⟩
          stress_vector := ⟨0, 0, 0⟩
          constitutive_matrix := ⟨1, 2, 3, 4, 5, 6, 7, 8, 9⟩
          compute_constitutive_tensor := false
          material_properties := ⟨1, 1, 1, 1, 1⟩ }).constitutive_matrix =
      ⟨1, 2, 3, 4, 5, 6, 7, 8, 9⟩)
    ∧ ((calculateMaterialResponseCauchy
        { strain_vector := ⟨1, 2, 3⟩
          stress_vector := ⟨0, 0, 0⟩
          constitutive_matrix := ⟨1, 2, 3, 4, 5, 6, 7, 8, 9⟩
          compute_constitutive_tensor := true
          material_properties := ⟨1, 1, 1, 1, 1⟩ }).constitutive_matrix =
      effectiveViscousConstitutiveMatrix2D
        (computeEffectiveViscosity ⟨1, 1, 1, 1, 1⟩ ⟨1, 2, 3⟩)) :=
  ⟨(response_frame _).1 rfl, (response_frame _).2.1 rfl⟩

/-- C9: for strain tensor `(0, 0, 1)` and parameters
`(consistencyIndex, yieldShear, flowIndex, adaptiveExponent) = (1, 0, 1, 1)`,
the equivalent strain rate is 2, the effective viscosity is 1, and the
stress vector written by `CalculateMaterialResponseCauchy` is `(0, 0, 2)`. -/
theorem pure_shear_case :
    equivalentStrainRate ⟨0, 0, 1⟩ = 2
    ∧ computeEffectiveViscosity ⟨1, 0, 1, 1, 0⟩ ⟨0, 0, 1⟩ = 1
    ∧ (calculateMaterialResponseCauchy
        { strain_vector := ⟨0, 0, 1⟩
          stress_vector := ⟨5, 5, 5⟩
          constitutive_matrix := ⟨0, 0, 0, 0, 0, 0, 0, 0, 0⟩
          compute_constitutive_tensor := false
          material_properties := ⟨1, 0, 1, 1, 0⟩ }).stress_vector = ⟨0, 0, 2⟩ := by
  have hesr : equivalentStrainRate ⟨0, 0, 1⟩ = 2 := by
    show Real.sqrt (2.0 * 0 * 0 + 2.0 * 0 * 0 + 4.0 * 1 * 1) = 2
    rw [show (2.0 * (0 : ℝ) * 0 + 2.0 * 0 * 0 + 4.0 * 1 * 1) = 2 ^ 2 by norm_num]
    exact Real.sqrt_sq (by norm_num)
  have hmu : computeEffectiveViscosity ⟨1, 0, 1, 1, 0⟩ ⟨0, 0, 1⟩ = 1 := by
    unfold computeEffectiveViscosity
    rw [hesr]
    unfold effectiveDynamicViscosity
    rw [if_neg (by norm_num [tolerance] : ¬ (2 : ℝ) < tolerance)]
    unfold regularizedBranch
    rw [show ((⟨1, 0, 1, 1, 0⟩ : MaterialProperties).flow_index - 1) = 0 by norm_num,
      Real.rpow_zero]
    norm_num
  refine ⟨hesr, hmu, ?_⟩
  have hst : (calculateMaterialResponseCauchy
      { strain_vector := ⟨0, 0, 1⟩
        stress_vector := ⟨5, 5, 5⟩
        constitutive_matrix := ⟨0, 0, 0, 0, 0, 0, 0, 0, 0⟩
        compute_constitutive_tensor := false
        material_properties := ⟨1, 0, 1, 1, 0⟩ }).stress_vector =
      stressVector (computeEffectiveViscosity ⟨1, 0, 1, 1, 0⟩ ⟨0, 0, 1⟩) ⟨0, 0, 1⟩ := rfl
  rw [hst, hmu]
  norm_num [stressVector]

/-- C10: the zero-strain-rate branch is selected by a strict comparison:
at an equivalent strain rate equal to the tolerance (or larger) the
regularized formula is used, and the constant viscosity
`yield_shear * adaptive_exponent` is returned only strictly below the
tolerance. -/
theorem tolerance_branch_strict (p : MaterialProperties) :
    effectiveDynamicViscosity p tolerance = regularizedBranch p tolerance
    ∧ (∀ esr : ℝ, tolerance ≤ esr → effectiveDynamicViscosity p esr = regularizedBranch p esr)
    ∧ (∀ esr : ℝ, esr < tolerance →
        effectiveDynamicViscosity p esr = p.yield_shear * p.adaptive_exponent) := by
  refine ⟨?_, fun esr h => ?_, fun esr h => ?_⟩
  · rw [effectiveDynamicViscosity, if_neg (lt_irrefl tolerance)]
  · rw [effectiveDynamicViscosity, if_neg (not_lt.mpr h)]
  · rw [effectiveDynamicViscosity, if_pos h]

/-- Witness for C10, above and below the tolerance at concrete
parameters. -/
theorem tolerance_branch_strict_witness :
    (tolerance ≤ (1 : ℝ)
      ∧ effectiveDynamicViscosity ⟨1, 2, 3, 4, 5⟩ 1 = regularizedBranch ⟨1, 2, 3, 4, 5⟩ 1)
    ∧ ((0 : ℝ) < tolerance
      ∧ effectiveDynamicViscosity ⟨1, 2, 3, 4, 5⟩ 0 = 2 * 4) := by
  have h1 : tolerance ≤ (1 : ℝ) := by norm_num [tolerance]
  have h0 : (0 : ℝ) < tolerance := by norm_num [tolerance]
  exact ⟨⟨h1, (tolerance_branch_strict ⟨1, 2, 3, 4, 5⟩).2.1 1 h1⟩,
    ⟨h0, (tolerance_branch_strict ⟨1, 2, 3, 4, 5⟩).2.2 0 h0⟩⟩

end HerschelBulkley
